import Mathlib

/-!
Verification development for the vsPOC calendar-and-leave assistant.

Shallow embedding of the parts of the repository that the checked
properties concern:

* `src/src/approval_callback.py` — the `ApprovalCallbackService` class
  (approval tracker, notification queue and time-windowed list);
* `src/src/enhanced_agent.py` — `CalendarAgent.process_message` (the
  polling run driver, its timeout and failed-run branches) and
  `CalendarAgent._handle_tool_calls` (tool dispatch);
* `src/src/agent_session.py` — `AgentSession` init and
  `AgentSession.process_message`.

Conventions of the embedding:

* Python dicts used as keyed stores become association lists
  (`List (String × α)`) with `dictGet` / `dictInsert` / `dictRemove`;
  Python dict keys are unique, so `dictInsert` replaces every earlier
  binding of the key and `dictRemove` drops them all.
* Python `None` becomes `Option.none`; Python truthiness of an optional
  string (`if error_details:`) becomes `pyTruthy`.
* Wall-clock values (`time.time()`) are explicit parameters; ISO
  timestamp strings (`datetime.now(...).isoformat()`) are opaque string
  parameters.  Millisecond durations recorded for display
  (`round((time.time() - start_time) * 1000, 2)`) are modelled as `0`,
  since no property depends on them.
* Backend calls (Azure runs/messages, the three local tool functions)
  are oracles supplied in a `Backend` structure: a status trace for
  `runs.get`, tool-call batches for `requires_action`, and an
  `Except`-valued implementation for the three registered functions
  (`.error` = the Python call raised).
-/

/-- Association-list lookup, first binding wins — models `d[k]` /
`k in d` / `d.get(k)` on a Python dict. -/
def dictGet {α : Type} (d : List (String × α)) (k : String) : Option α :=
  match d with
  | [] => none
  | (k', v) :: rest => if k' == k then some v else dictGet rest k

/-- Models Python dict assignment `d[k] = v`: the key ends up bound to
`v` exactly once (dict keys are unique). -/
def dictInsert {α : Type} (d : List (String × α)) (k : String) (v : α) :
    List (String × α) :=
  d.filter (fun p => !(p.1 == k)) ++ [(k, v)]

/-- Models Python `del d[k]`. -/
def dictRemove {α : Type} (d : List (String × α)) (k : String) :
    List (String × α) :=
  d.filter (fun p => !(p.1 == k))

/-- Python truthiness of an optional string value (`None` and `""` are
falsy). -/
def pyTruthy : Option String → Bool
  | none => false
  | some s => !(s == "")

/-- ASCII lower-casing of one character, as Python `str.lower` acts on
the ASCII strings that appear in the source. -/
def lowerChar (c : Char) : Char :=
  if 'A' ≤ c ∧ c ≤ 'Z' then Char.ofNat (c.toNat + 32) else c

/-- Models Python `s.lower()` (ASCII). -/
def strLower (s : String) : String := ⟨s.data.map lowerChar⟩

/-- Predicate `chStarts pat l` : `l` starts with `pat`. -/
def chStarts : List Char → List Char → Bool
  | [], _ => true
  | _ :: _, [] => false
  | a :: as, b :: bs => a == b && chStarts as bs

/-- Predicate `chContains pat l` : `pat` occurs as a contiguous run of `l`. -/
def chContains (pat : List Char) : List Char → Bool
  | [] => pat.isEmpty
  | c :: rest => chStarts pat (c :: rest) || chContains pat rest

/-- Models Python `needle in hay` on strings. -/
def strContains (hay needle : String) : Bool :=
  chContains needle.data hay.data

/-! ## Approval callback service (`src/src/approval_callback.py`)

`ApprovalCallbackService` keeps two keyed stores (`pending_approvals`,
`approval_responses`), and the module-level notification structures
(`notification_queue`, `global_recent_notifications`) that the service
aliases; all four are carried in one state record here. -/

/-- One approval record, the dict built in `register_approval_request`
(lines 57-62) and extended in place by `handle_approval_response`
(lines 94-100).  Fields that only exist after resolution are `Option`,
`none` meaning the key is absent. -/
structure ApprovalData where
  request_details : List (String × String)
  status : String
  created_at : String
  callback_url : String
  selected_option : Option String := none
  logic_app_message : Option String := none
  completed_at : Option String := none
deriving DecidableEq, Repr

/-- A notification dict as built in `_handle_approved_request` /
`_handle_rejected_request` (the `"type"` key is `ntype` here). -/
structure Notification where
  ntype : String
  approval_id : String
  status : String
  message : String
  details : ApprovalData
deriving DecidableEq, Repr

/-- An entry of `global_recent_notifications`: the notification dict
plus the `"timestamp"` key added before appending (lines 151-156). -/
structure TimedNotification where
  notif : Notification
  timestamp : Int
deriving DecidableEq, Repr

/-- State of `ApprovalCallbackService` together with the module-level
notification storage it uses. -/
structure ApprovalService where
  pending_approvals : List (String × ApprovalData)
  approval_responses : List (String × ApprovalData)
  notification_queue : List Notification
  recent_notifications : List TimedNotification
  callback_base_url : String := "http://localhost:5000"
  notification_timeout : Int := 300
deriving DecidableEq, Repr

/-- A freshly constructed service (`__init__` with no prior global
notifications and the default `CALLBACK_BASE_URL`). -/
def emptyService : ApprovalService :=
  { pending_approvals := []
    approval_responses := []
    notification_queue := []
    recent_notifications := [] }

/-- Embedding of `register_approval_request` (lines 40-65): insert a pending record
and return the callback URL.  `created_at_iso` stands for
`datetime.now(timezone.utc).isoformat()`. -/
def register_approval_request (s : ApprovalService) (approval_id : String)
    (request_details : List (String × String)) (created_at_iso : String) :
    ApprovalService × String :=
  let callback_url := s.callback_base_url ++ "/api/approval/callback/" ++ approval_id
  let ad : ApprovalData :=
    { request_details := request_details
      status := "pending"
      created_at := created_at_iso
      callback_url := callback_url }
  ({ s with pending_approvals := dictInsert s.pending_approvals approval_id ad },
   callback_url)

/-- The f-string of `_handle_approved_request` (lines 137-143).  The
`.get(key, default)` calls fall back to the default only when the key is
absent, i.e. when the `Option` field is `none`. -/
def approvedNotifMessage (approval_id : String) (ad : ApprovalData) : String :=
  "🎉 Great news! Your leave request has been APPROVED!\n\n" ++
  "📋 **Approval Details:**\n" ++
  "- **Request ID:** " ++ approval_id ++ "\n" ++
  "- **Status:** ✅ APPROVED\n" ++
  "- **Manager\u0027s Response:** " ++ ad.logic_app_message.getD "Approved" ++ "\n" ++
  "- **Processed:** " ++ ad.completed_at.getD "Just now" ++ "\n\n" ++
  "🗓️ Your leave has been added to the system. Enjoy your time off!"

/-- The f-string of `_handle_rejected_request` (lines 178-184). -/
def rejectedNotifMessage (approval_id : String) (ad : ApprovalData) : String :=
  "❌ Your leave request has been rejected.\n\n" ++
  "📋 **Rejection Details:**\n" ++
  "- **Request ID:** " ++ approval_id ++ "\n" ++
  "- **Status:** ❌ REJECTED\n" ++
  "- **Manager\u0027s Response:** " ++ ad.logic_app_message.getD "Rejected" ++ "\n" ++
  "- **Processed:** " ++ ad.completed_at.getD "Just now" ++ "\n\n" ++
  "💬 You may want to discuss this with your manager for more details."

/-- Embedding of `_handle_approved_request` (lines 127-168): only a
`"leave_request"` emits a notification (queue + windowed list); a
`"meeting_request"` only logs, any other type hits no branch.  `now` is
the `time.time()` used for the windowed timestamp. -/
def handleApprovedRequest (s : ApprovalService) (approval_id : String)
    (ad : ApprovalData) (now : Int) : ApprovalService :=
  if dictGet ad.request_details "type" == some "leave_request" then
    let n : Notification :=
      { ntype := "approval_update"
        approval_id := approval_id
        status := "APPROVED"
        message := approvedNotifMessage approval_id ad
        details := ad }
    { s with notification_queue := s.notification_queue ++ [n]
             recent_notifications := s.recent_notifications ++ [⟨n, now⟩] }
  else s

/-- Embedding of `_handle_rejected_request` (lines 170-202): always emits one
notification into both structures, regardless of request type. -/
def handleRejectedRequest (s : ApprovalService) (approval_id : String)
    (ad : ApprovalData) (now : Int) : ApprovalService :=
  let n : Notification :=
    { ntype := "approval_update"
      approval_id := approval_id
      status := "REJECTED"
      message := rejectedNotifMessage approval_id ad
      details := ad }
  { s with notification_queue := s.notification_queue ++ [n]
           recent_notifications := s.recent_notifications ++ [⟨n, now⟩] }

/-- Return value of `handle_approval_response`, one constructor per
return site: `notFound` is the dict of lines 88-91 (`{"error": msg,
"status": "error"}`), `exnCaught` the dict of lines 122-125 built by the
`except` handler, `ok` the success dict of lines 114-118. -/
inductive ResolveResult where
  | notFound (error : String)
  | exnCaught (error : String)
  | ok (message : String) (approval_data : ApprovalData)
deriving DecidableEq, Repr

/-- Embedding of `handle_approval_response` (lines 67-125).  `status` is `Option`
because the callback ingress forwards `payload.get('status')`, which is
`None` when the key is missing; `status.lower()` on `None` raises
`AttributeError` before any mutation, and the surrounding
`try`/`except` turns that into the error dict — hence the `exnCaught`
branch with the state unchanged.  `completed_at_iso` models the
`isoformat()` timestamp, `now` the `time.time()` used by the
notification handlers. -/
def handle_approval_response (s : ApprovalService) (approval_id : String)
    (status : Option String) (selected_option : Option String)
    (message : String) (completed_at_iso : String) (now : Int) :
    ApprovalService × ResolveResult :=
  match dictGet s.pending_approvals approval_id with
  | none => (s, .notFound ("Approval ID " ++ approval_id ++ " not found"))
  | some approval_data =>
    match status with
    | none =>
      (s, .exnCaught "AttributeError: NoneType object has no attribute lower")
    | some st =>
      let ad2 : ApprovalData :=
        { approval_data with
            status := strLower st
            selected_option := selected_option
            logic_app_message := some message
            completed_at := some completed_at_iso }
      let s2 : ApprovalService :=
        { s with approval_responses := dictInsert s.approval_responses approval_id ad2
                 pending_approvals := dictRemove s.pending_approvals approval_id }
      let s3 :=
        if st == "APPROVED" then handleApprovedRequest s2 approval_id ad2 now
        else handleRejectedRequest s2 approval_id ad2 now
      (s3, .ok ("Approval " ++ approval_id ++ " processed: " ++ st) ad2)

/-- The dict returned by `check_notifications` (lines 255-268); the
`"status"` key is always `"success"`. -/
structure CheckResult where
  status : String
  has_notifications : Bool
  notifications : List Notification
  count : Nat
deriving DecidableEq, Repr

/-- Embedding of `check_notifications` (lines 227-268): drain the queue, prune
windowed entries aged `>= notification_timeout`, then append each
surviving windowed notification (timestamp stripped) unless an equal
dict is already in the list. -/
def check_notifications (s : ApprovalService) (now : Int) :
    ApprovalService × CheckResult :=
  let fromQueue := s.notification_queue
  let kept := s.recent_notifications.filter
    (fun tn => now - tn.timestamp < s.notification_timeout)
  let notifications := kept.foldl
    (fun acc tn => if tn.notif ∈ acc then acc else acc ++ [tn.notif]) fromQueue
  let s2 := { s with notification_queue := [], recent_notifications := kept }
  if notifications.isEmpty then
    (s2, { status := "success", has_notifications := false
           notifications := [], count := 0 })
  else
    (s2, { status := "success", has_notifications := true
           notifications := notifications, count := notifications.length })

/-- Embedding of `clear_shown_notifications` (lines 270-280): unconditionally empty
both the windowed list and the queue. -/
def clear_shown_notifications (s : ApprovalService) : ApprovalService :=
  { s with notification_queue := [], recent_notifications := [] }

/-! ## Tool dispatch (`src/src/enhanced_agent.py`, `_handle_tool_calls`)

A `ToolCall` from a `requires_action` run carries a `call.id`, a
function name, and an arguments string; `json.loads` of the arguments is
modelled by the `args` field, `none` meaning the parse raised
`JSONDecodeError`. -/

/-- One tool call extracted from `run.required_action` — `call.id`,
`call.function.name`, and the outcome of
`json.loads(call.function.arguments)` (`none` = `JSONDecodeError`). -/
structure ToolCallReq where
  id : String
  name : String
  args : Option (List (String × String))
deriving DecidableEq, Repr

/-- The result object serialised into an output's `"output"` field:
either the value returned by a registered function (`val`, standing for
the object whose `json.dumps` is submitted) or one of the structured
error dicts `{"error": kind, "message": msg}`. -/
inductive ToolRet where
  | val (s : String)
  | errObj (error : String) (message : String)
deriving DecidableEq, Repr

/-- One element of the `outputs` list:
`{"tool_call_id": call.id, "output": json.dumps(result)}`. -/
structure ToolOutput where
  tool_call_id : String
  output : ToolRet
deriving DecidableEq, Repr

/-- The `"parameters"` field of a tracked call: the parsed args dict, or
the literal string `"Invalid JSON"` used in the `JSONDecodeError`
handler (line 576). -/
inductive TrackParams where
  | args (a : List (String × String))
  | invalidJson
deriving DecidableEq, Repr

/-- An entry of `all_tool_calls` (the display-tracking list).  The
records appended by the capture step (lines 310-315) carry a
`tool_type`; the ones appended by the `except` handlers (lines 574-580,
593-599) do not, so `tool_type` is `Option`.  `start_time` is not
carried (wall-clock, display only) and recorded durations are modelled
as `0`. -/
structure TrackedCall where
  name : String
  parameters : TrackParams
  call_id : String
  tool_type : Option String := none
  result : Option ToolRet := none
  duration : Option Nat := none
deriving DecidableEq, Repr

/-- The three names executed locally as `FunctionTool`s (lines 318,
530): everything else is treated as an OpenAPI call. -/
def isRegisteredFunction (fn : String) : Bool :=
  fn == "read_schedule" || fn == "create_meeting" || fn == "get_current_datetime"

/-- The oracle for the three local functions: `.ok r` is a successful
return whose `json.dumps` is `r`; `.error e` means the call raised with
`str(e) = e` (covering bad keyword arguments and everything else the
generic `except` catches). -/
def ToolImpl : Type := String → List (String × String) → Except String String

/-- Models `if all_tool_calls:` followed by the first-match update loop
(lines 543-548 / 561-566): update the first tracked call with a
matching `call_id`, then `break`.  A `None` or empty list is falsy, so
nothing is updated. -/
def updateTracked (l : List TrackedCall) (cid : String) (r : ToolRet) :
    List TrackedCall :=
  match l with
  | [] => []
  | t :: rest =>
    if t.call_id == cid then { t with result := some r, duration := some 0 } :: rest
    else t :: updateTracked rest cid r

/-- Lift of `updateTracked` to the optional `all_tool_calls` argument
(guarded by `if all_tool_calls:`, so `None` is left alone). -/
def updateFirst (acc : Option (List TrackedCall)) (cid : String) (r : ToolRet) :
    Option (List TrackedCall) :=
  match acc with
  | none => none
  | some l => some (updateTracked l cid r)

/-- The record appended by the `except json.JSONDecodeError` handler
(lines 574-581). -/
def invalidJsonTracked (c : ToolCallReq) : TrackedCall :=
  { name := c.name
    parameters := .invalidJson
    call_id := c.id
    result := some (.errObj "invalid_arguments" "Invalid function arguments")
    duration := some 0 }

/-- The record appended by the generic `except` handler
(lines 593-600). -/
def execErrorTracked (c : ToolCallReq) (a : List (String × String)) (e : String) :
    TrackedCall :=
  { name := c.name
    parameters := .args a
    call_id := c.id
    result := some (.errObj "execution_error" ("Error executing " ++ c.name ++ ": " ++ e))
    duration := some 0 }

/-- The body of `_handle_tool_calls`' `for` loop for one call
(lines 524-604).  The `Except` models an exception escaping the
handler: both `except` branches run `all_tool_calls.append(...)`
unguarded, which raises `AttributeError` when `all_tool_calls` is
`None` (the default argument) and propagates out of the function. -/
def handleOneCall (impl : ToolImpl) (c : ToolCallReq)
    (acc : Option (List TrackedCall)) :
    Except String (List ToolOutput × Option (List TrackedCall)) :=
  match c.args with
  | none =>
    -- json.loads raised: JSONDecodeError handler (lines 568-585)
    match acc with
    | none => .error "AttributeError: NoneType object has no attribute append"
    | some l =>
      .ok ([⟨c.id, .errObj "invalid_arguments" "Invalid function arguments"⟩],
           some (l ++ [invalidJsonTracked c]))
  | some a =>
    if isRegisteredFunction c.name then
      match impl c.name a with
      | .ok result =>
        -- lines 530-553: execute, update the tracked call, emit output
        .ok ([⟨c.id, .val result⟩], updateFirst acc c.id (.val result))
      | .error e =>
        -- generic except handler (lines 587-604)
        match acc with
        | none => .error "AttributeError: NoneType object has no attribute append"
        | some l =>
          .ok ([⟨c.id, .errObj "execution_error" ("Error executing " ++ c.name ++ ": " ++ e)⟩],
               some (l ++ [execErrorTracked c a e]))
    else
      -- lines 555-566: OpenAPI call, handled by Azure — no output
      .ok ([], updateFirst acc c.id
        (.val ("Handled by Azure AI (OpenAPI: " ++ c.name ++ ")")))

/-- Embedding of `_handle_tool_calls` (lines 510-606): fold `handleOneCall` over the
batch, accumulating outputs in call order and threading the tracking
list. -/
def handleToolCalls (impl : ToolImpl) :
    List ToolCallReq → Option (List TrackedCall) →
    Except String (List ToolOutput × Option (List TrackedCall))
  | [], acc => .ok ([], acc)
  | c :: rest, acc =>
    match handleOneCall impl c acc with
    | .error e => .error e
    | .ok (outs1, acc1) =>
      match handleToolCalls impl rest acc1 with
      | .error e => .error e
      | .ok (outsR, accR) => .ok (outs1 ++ outsR, accR)

/-- Whether `_handle_tool_calls` emits an output for a call: registered
functions always do, and a call whose arguments fail to parse does too
(the `JSONDecodeError` handler fires before the name is checked);
an unregistered name with well-formed arguments produces none. -/
def producesOutput (c : ToolCallReq) : Bool :=
  c.args.isNone || isRegisteredFunction c.name

/-! ## Conversation run driver (`CalendarAgent.process_message`,
`src/src/enhanced_agent.py` lines 244-508)

The Azure backend is an oracle: `statusAt i` is the status returned by
the `i`-th `runs.get` (with `statusAt 0` the status of the freshly
created run), `toolCallsAt i` the batch of tool calls exposed when that
status is `requires_action`, `lastError` the string form of
`run.last_error or run.error` on failure (`none` = Python `None`), and
`impl` the behaviour of the three local functions.  The `completed`
branch (lines 378-484: latest-assistant-message extraction plus the
synthetic FlexHR tool-call heuristic) is not modelled — no checked
property depends on it — and is represented by the backend-provided
`completedOutcome`. -/

/-- A Python value as it appears in the result dicts of
`process_message`: a string, `None`, or the empty list used as the
`tool_calls` default in `agent_session.py` (line 131). -/
inductive PyVal where
  | pnone
  | str (s : String)
  | emptyList
deriving DecidableEq, Repr

/-- Oracle for the Azure backend during one turn (see section
comment). -/
structure Backend where
  statusAt : Nat → String
  toolCallsAt : Nat → List ToolCallReq
  impl : ToolImpl
  lastError : Option String
  completedOutcome : List TrackedCall → List (String × PyVal)

/-- Constant `max_iterations = 150` (line 275). -/
def MAX_ITERATIONS : Nat := 150

/-- The `while` guard statuses (line 278). -/
def isActiveStatus (s : String) : Bool :=
  s == "queued" || s == "in_progress" || s == "requires_action"

/-- The capture step for a `requires_action` batch (lines 302-329):
each call whose arguments parse is appended to `all_tool_calls` with a
placeholder result; a call whose arguments fail `json.loads` is logged
and skipped. -/
def captureCalls (calls : List ToolCallReq) : List TrackedCall :=
  calls.filterMap fun c =>
    c.args.map fun a =>
      if isRegisteredFunction c.name then
        { name := c.name, parameters := .args a, call_id := c.id
          tool_type := some "function", result := some (.val "Executing...") }
      else
        { name := c.name, parameters := .args a, call_id := c.id
          tool_type := some "openapi"
          result := some (.val ("OpenAPI call to " ++ c.name)) }

/-- The polling `while` loop (lines 278-340), written with explicit
fuel: the guard bounds `iters` by `MAX_ITERATIONS` and `iters` grows by
one per round, so fuel `MAX_ITERATIONS - iters` is exactly the number
of rounds left and running out of fuel coincides with the guard
`iters < MAX_ITERATIONS` failing.  Each round sleeps (not modelled),
increments `iterations`, refreshes the status, and on
`requires_action` captures the batch, dispatches it
(`_handle_tool_calls`, whose exception would propagate — the `.error`
case), and submits the outputs (no local effect). -/
def pollFuel (b : Backend) :
    Nat → Nat → String → List TrackedCall →
    Except String (Nat × String × List TrackedCall)
  | 0, iters, status, tracked => .ok (iters, status, tracked)
  | fuel + 1, iters, status, tracked =>
    if isActiveStatus status ∧ iters < MAX_ITERATIONS then
      let iters' := iters + 1
      let status' := b.statusAt iters'
      if status' == "requires_action" then
        let calls := b.toolCallsAt iters'
        let tracked' := tracked ++ captureCalls calls
        match handleToolCalls b.impl calls (some tracked') with
        | .error e => .error e
        | .ok (_, accOut) =>
          pollFuel b fuel iters' status' (accOut.getD tracked')
      else
        pollFuel b fuel iters' status' tracked
    else .ok (iters, status, tracked)

/-- The whole polling loop, starting from the created run's status with
an empty tracking list. -/
def pollLoop (b : Backend) : Except String (Nat × String × List TrackedCall) :=
  pollFuel b MAX_ITERATIONS 0 (b.statusAt 0) []

/-- The error-message classification of the failed-run branch
(lines 360-369): best-effort substring matching on the lower-cased
payload, rate/limit before quota/usage before the generic message; an
absent or falsy payload keeps the default message. -/
def classifyFailedMsg (error_details : Option String) : String :=
  if pyTruthy error_details then
    let d := error_details.getD ""
    let l := strLower d
    if strContains l "rate" || strContains l "limit" then
      "Rate limit hit: " ++ d
    else if strContains l "quota" || strContains l "usage" then
      "Quota/Usage limit hit: " ++ d
    else
      "Run failed: " ++ d
  else "Run failed - possibly due to rate limiting or thread lock"

/-- The top-level `except` classification (lines 486-508), applied to
`str(e).lower()` of an exception escaping the turn. -/
def classifyExceptionDict (e : String) : List (String × PyVal) :=
  let l := strLower e
  if strContains l "rate limit" || strContains l "too many requests"
      || strContains l "throttle" then
    [("status", .str "error"),
     ("message", .str "Rate limit exceeded. Please wait and try again."),
     ("error_details", .str e)]
  else if strContains l "quota" then
    [("status", .str "error"),
     ("message", .str "Service quota exceeded. Please check your Azure AI usage."),
     ("error_details", .str e)]
  else
    [("status", .str "error"),
     ("message", .str "An unexpected error occurred while processing your request."),
     ("error_details", .str e)]

/-- The body of `process_message` inside its `try` (lines 260-484):
run the poll loop, then dispatch on how it ended — timeout
(lines 343-349), `failed` (lines 351-376), `completed` (lines 378-477,
the unmodelled `completedOutcome`), or any other terminal status
(lines 478-484). -/
def processMessageInner (b : Backend) : Except String (List (String × PyVal)) :=
  match pollLoop b with
  | .error e => .error e
  | .ok (iterations, status, tracked) =>
    if iterations ≥ MAX_ITERATIONS then
      .ok [("status", .str "error"),
           ("message", .str ("Request timed out after "
              ++ toString (iterations * 2) ++ " seconds. Status: " ++ status)),
           ("run_status", .str status)]
    else if status == "failed" then
      .ok [("status", .str "error"),
           ("message", .str (classifyFailedMsg b.lastError)),
           ("run_status", .str status),
           ("error_details",
            match b.lastError with
            | some d => .str d
            | none => .pnone)]
    else if status == "completed" then
      .ok (b.completedOutcome tracked)
    else
      .ok [("status", .str "error"),
           ("message", .str ("Processing failed with status: " ++ status)),
           ("run_status", .str status)]

/-- Embedding of `CalendarAgent.process_message` (lines 244-508): the `try` body
with the top-level `except` converting an escaped exception into one of
the three generic error dicts. -/
def processMessage (b : Backend) : List (String × PyVal) :=
  match processMessageInner b with
  | .ok d => d
  | .error e => classifyExceptionDict e

/-! ## Session manager (`src/src/agent_session.py`, `AgentSession`) -/

/-- The mutable fields of `AgentSession` (`__init__`, lines 75-79).
`agent` and `project_context` are opaque handles. -/
structure SessionState where
  agent : Option Unit
  agent_id : Option String
  thread_id : Option String
  project_context : Option Unit
deriving DecidableEq, Repr

/-- A session with every handle `None` (the state `__init__` leaves). -/
def freshSession : SessionState :=
  { agent := none, agent_id := none, thread_id := none, project_context := none }

/-- Oracle for the backend calls made by `AgentSession.initialize`:
which step raises, and the ids produced on success. -/
structure InitEnv where
  calendarAgentRaises : Bool
  enterRaises : Bool
  createAgentRaises : Bool
  createThreadRaises : Bool
  agentIdValue : String
  threadIdValue : String
deriving DecidableEq, Repr

/-- Embedding of `AgentSession.initialize` (lines 81-105).  The whole body is one
`try` whose `except` returns `False`; the assignments before the
raising call survive, because the handler does not roll anything back.
When `self.agent` is not `None` the `if` body is skipped and the
function falls through, returning Python `None` — modelled as the
`none` in the second component (`some true` = `return True`,
`some false` = `return False`). -/
def initSession (env : InitEnv) (s : SessionState) : SessionState × Option Bool :=
  if s.agent.isSome then
    (s, none)
  else if env.calendarAgentRaises then
    -- `CalendarAgent()` raised before any field was assigned
    (s, some false)
  else
    -- `self.agent = CalendarAgent()`; `self.project_context = self.agent.project`
    let s1 : SessionState := { s with agent := some (), project_context := some () }
    if env.enterRaises then (s1, some false)
    else if env.createAgentRaises then (s1, some false)
    else
      -- `self.agent_id = self.agent.create_agent()`
      let s2 : SessionState := { s1 with agent_id := some env.agentIdValue }
      if env.createThreadRaises then (s2, some false)
      else ({ s2 with thread_id := some env.threadIdValue }, some true)

/-- Dict lookup with default, `d.get(k, default)`. -/
def pyGetD (d : List (String × PyVal)) (k : String) (dflt : PyVal) : PyVal :=
  (dictGet d k).getD dflt

/-- Embedding of `AgentSession.process_message` (lines 107-141): lazily initialize
when a handle is missing (`if not self.agent or not self.thread_id:`),
then delegate to `CalendarAgent.process_message` and repackage
`status` / `message` / `thread_id` / `timestamp` / `tool_calls`.  The
delegate call is total in this model, so the surrounding `except` is
dead here. -/
def sessionProcessMessage (env : InitEnv) (b : Backend) (s : SessionState) :
    SessionState × List (String × PyVal) :=
  if s.agent.isNone || s.thread_id.isNone then
    let (s', r) := initSession env s
    if r = some true then
      let resp := processMessage b
      (s', [("status", pyGetD resp "status" .pnone),
            ("message", pyGetD resp "message" .pnone),
            ("thread_id", match s'.thread_id with | some t => .str t | none => .pnone),
            ("timestamp", pyGetD resp "timestamp" (.str "")),
            ("tool_calls", pyGetD resp "tool_calls" .emptyList)])
    else
      (s', [("status", .str "error"),
            ("message", .str "Failed to initialize agent session"),
            ("thread_id", .pnone)])
  else
    let resp := processMessage b
    (s, [("status", pyGetD resp "status" .pnone),
         ("message", pyGetD resp "message" .pnone),
         ("thread_id", match s.thread_id with | some t => .str t | none => .pnone),
         ("timestamp", pyGetD resp "timestamp" (.str "")),
         ("tool_calls", pyGetD resp "tool_calls" .emptyList)])

/-! ## Concrete instances used by the theorems below -/

/-- A tool implementation whose three registered functions always
succeed with payload `"42"`. -/
def implDemo : ToolImpl := fun _ _ => .ok "42"

/-- A tool call naming a function outside the registered set, with
well-formed arguments. -/
def bogusCall : ToolCallReq := ⟨"call_7", "fetch_weather", some [("city", "Oslo")]⟩

/-- A registered-function tool call with well-formed (empty)
arguments. -/
def dtCall : ToolCallReq := ⟨"call_8", "get_current_datetime", some []⟩

/-- Request details of a leave request as produced by the approval
tool. -/
def leaveDetails : List (String × String) :=
  [("type", "leave_request"), ("start_date", "2025-11-20"), ("end_date", "2025-11-22")]

/-- Service state after registering approval `"A"` for a leave
request. -/
def sPendingLeave : ApprovalService :=
  (register_approval_request emptyService "A" leaveDetails
    "2025-11-18T08:00:00+00:00").1

/-- The pending record stored for `"A"` in `sPendingLeave`. -/
def adPendingLeave : ApprovalData :=
  { request_details := leaveDetails
    status := "pending"
    created_at := "2025-11-18T08:00:00+00:00"
    callback_url := "http://localhost:5000/api/approval/callback/A" }

/-- Service state after the callback resolves `"A"` with
`APPROVED` at `time.time() = 0`. -/
def sResolvedLeave : ApprovalService :=
  (handle_approval_response sPendingLeave "A" (some "APPROVED") (some "Approve")
    "Enjoy!" "2025-11-18T09:00:00+00:00" 0).1

/-- Service state after registering approval `"M"` for a meeting
request. -/
def sPendingMeeting : ApprovalService :=
  (register_approval_request emptyService "M" [("type", "meeting_request")] "t0").1

/-- Service state after the callback resolves `"M"` with `APPROVED`. -/
def sResolvedMeeting : ApprovalService :=
  (handle_approval_response sPendingMeeting "M" (some "APPROVED") (some "Approve")
    "ok" "t1" 0).1

/-- A small notification used to instantiate windowed-list theorems. -/
def notifSample : Notification :=
  { ntype := "approval_update"
    approval_id := "A"
    status := "APPROVED"
    message := "sample"
    details := { request_details := [], status := "approved"
                 created_at := "t0", callback_url := "u" } }

/-- A service whose queue is drained and whose windowed list holds one
notification created at `time.time() = 0`. -/
def sAgedWindow : ApprovalService :=
  { pending_approvals := []
    approval_responses := []
    notification_queue := []
    recent_notifications := [⟨notifSample, 0⟩] }

/-- A backend whose run never leaves `in_progress`. -/
def backendHang : Backend :=
  { statusAt := fun _ => "in_progress"
    toolCallsAt := fun _ => []
    impl := implDemo
    lastError := none
    completedOutcome := fun _ => [] }

/-- A backend whose run fails immediately with a rate-limit payload. -/
def backendFailedRate : Backend :=
  { statusAt := fun _ => "failed"
    toolCallsAt := fun _ => []
    impl := implDemo
    lastError := some "Rate limit exceeded"
    completedOutcome := fun _ => [] }

/-- A fully initialized session. -/
def activeSession : SessionState :=
  { agent := some (), agent_id := some "agent-1"
    thread_id := some "thread-1", project_context := some () }

/-- An init environment in which every backend call succeeds. -/
def envOk : InitEnv :=
  ⟨false, false, false, false, "agent-1", "thread-1"⟩

/-- An init environment in which `create_agent()` raises. -/
def envAgentFail : InitEnv :=
  ⟨false, false, true, false, "agent-1", "thread-1"⟩

/-- Looking up the key just inserted. -/
theorem dictGet_insert_self {α : Type} (d : List (String × α)) (k : String) (v : α) :
    dictGet (dictInsert d k v) k = some v := by
  unfold dictInsert
  induction d with
  | nil => simp [dictGet]
  | cons p rest ih =>
    by_cases h : (p.1 == k) = true
    · simp [List.filter, h, ih]
    · simp only [List.filter]
      rw [show (!(p.1 == k)) = true by simp [h]]
      simp only [List.cons_append, dictGet, h]
      exact ih

/-- Looking up a key just removed. -/
theorem dictGet_remove_self {α : Type} (d : List (String × α)) (k : String) :
    dictGet (dictRemove d k) k = none := by
  unfold dictRemove
  induction d with
  | nil => simp [dictGet]
  | cons p rest ih =>
    by_cases h : (p.1 == k) = true
    · simp [List.filter, h, ih]
    · simp only [List.filter]
      rw [show (!(p.1 == k)) = true by simp [h]]
      simp only [dictGet, h]
      exact ih

/-- The two notification handlers only touch the notification
structures. -/
theorem handleApproved_stores (s : ApprovalService) (id : String)
    (ad : ApprovalData) (now : Int) :
    (handleApprovedRequest s id ad now).pending_approvals = s.pending_approvals ∧
    (handleApprovedRequest s id ad now).approval_responses = s.approval_responses := by
  unfold handleApprovedRequest
  split <;> exact ⟨rfl, rfl⟩

theorem handleRejected_stores (s : ApprovalService) (id : String)
    (ad : ApprovalData) (now : Int) :
    (handleRejectedRequest s id ad now).pending_approvals = s.pending_approvals ∧
    (handleRejectedRequest s id ad now).approval_responses = s.approval_responses :=
  ⟨rfl, rfl⟩

/-- After a successful resolution the id is gone from the pending store
and present in the resolved store. -/
theorem resolve_moves_record (s : ApprovalService) (id : String) (st : String)
    (so : Option String) (m t : String) (now : Int) (ad : ApprovalData)
    (h : dictGet s.pending_approvals id = some ad) :
    ∃ ad2 : ApprovalData,
      handle_approval_response s id (some st) so m t now =
        ((handle_approval_response s id (some st) so m t now).1,
          .ok ("Approval " ++ id ++ " processed: " ++ st) ad2) ∧
      dictGet (handle_approval_response s id (some st) so m t now).1.pending_approvals id = none ∧
      dictGet (handle_approval_response s id (some st) so m t now).1.approval_responses id = some ad2 := by
  unfold handle_approval_response
  rw [h]
  simp only
  set ad2 : ApprovalData :=
    { ad with status := strLower st, selected_option := so,
              logic_app_message := some m, completed_at := some t } with had2
  refine ⟨ad2, rfl, ?_, ?_⟩
  · by_cases hst : (st == "APPROVED") = true
    · simp only [hst, if_pos]
      rw [(handleApproved_stores _ _ _ _).1]
      exact dictGet_remove_self _ _
    · rw [if_neg (by simp [hst])]
      rw [(handleRejected_stores _ _ _ _).1]
      exact dictGet_remove_self _ _
  · by_cases hst : (st == "APPROVED") = true
    · simp only [hst, if_pos]
      rw [(handleApproved_stores _ _ _ _).2]
      exact dictGet_insert_self _ _ _
    · rw [if_neg (by simp [hst])]
      rw [(handleRejected_stores _ _ _ _).2]
      exact dictGet_insert_self _ _ _

/-- Behaviour of `_handle_tool_calls` on one call: when the tracking list is
present: never raises, keeps the tracking list present, and emits
exactly one output (keyed by the call id) when the call is registered
or its arguments failed to parse, none otherwise. -/
theorem handleOneCall_spec (impl : ToolImpl) (c : ToolCallReq)
    (tr : List TrackedCall) :
    ∃ outs tr', handleOneCall impl c (some tr) = .ok (outs, some tr') ∧
      outs.map (fun o => o.tool_call_id) =
        (if producesOutput c then [c.id] else []) := by
  obtain ⟨cid, cname, cargs⟩ := c
  unfold handleOneCall producesOutput
  cases cargs with
  | none => exact ⟨_, _, rfl, rfl⟩
  | some a =>
    simp only
    by_cases hreg : isRegisteredFunction cname = true
    · rw [if_pos hreg]
      cases himpl : impl cname a with
      | ok r =>
        refine ⟨_, _, rfl, ?_⟩
        simp [hreg, updateFirst]
      | error e =>
        refine ⟨_, _, rfl, ?_⟩
        simp [hreg]
    · rw [if_neg hreg]
      refine ⟨_, _, rfl, ?_⟩
      simp [hreg]

/-- Behaviour of `_handle_tool_calls` on a batch: when the tracking list is present:
never raises and the emitted outputs are keyed, in order, by exactly
the calls that produce one. -/
theorem handleToolCalls_spec (impl : ToolImpl) :
    ∀ (calls : List ToolCallReq) (tr : List TrackedCall),
      ∃ outs tr', handleToolCalls impl calls (some tr) = .ok (outs, some tr') ∧
        outs.map (fun o => o.tool_call_id) =
          (calls.filter producesOutput).map (fun c => c.id) := by
  intro calls
  induction calls with
  | nil => intro tr; exact ⟨[], tr, rfl, rfl⟩
  | cons c rest ih =>
    intro tr
    obtain ⟨outs1, tr1, h1, hk1⟩ := handleOneCall_spec impl c tr
    obtain ⟨outsR, trR, hR, hkR⟩ := ih tr1
    refine ⟨outs1 ++ outsR, trR, ?_, ?_⟩
    · unfold handleToolCalls
      rw [h1]
      dsimp only
      rw [hR]
    · rw [List.map_append, hk1, hkR, List.filter_cons]
      by_cases hp : producesOutput c = true
      · simp [hp]
      · simp [hp]

/-- If every status observed before the cap is an active one, the poll
loop runs its full `MAX_ITERATIONS` rounds and ends on the status of
the last `runs.get`. -/
theorem pollFuel_active (b : Backend)
    (hact : ∀ i, i < MAX_ITERATIONS → isActiveStatus (b.statusAt i) = true) :
    ∀ fuel iters tracked, fuel + iters = MAX_ITERATIONS →
      ∃ tr, pollFuel b fuel iters (b.statusAt iters) tracked =
        .ok (MAX_ITERATIONS, b.statusAt MAX_ITERATIONS, tr) := by
  intro fuel
  induction fuel with
  | zero =>
    intro iters tracked h
    have hit : iters = MAX_ITERATIONS := by omega
    subst hit
    exact ⟨tracked, rfl⟩
  | succ n ih =>
    intro iters tracked h
    have hlt : iters < MAX_ITERATIONS := by omega
    have ha := hact iters hlt
    unfold pollFuel
    rw [if_pos ⟨ha, hlt⟩]
    by_cases hra : (b.statusAt (iters + 1) == "requires_action") = true
    · rw [if_pos hra]
      obtain ⟨outs, tr', heq, _⟩ :=
        handleToolCalls_spec b.impl (b.toolCallsAt (iters + 1))
          (tracked ++ captureCalls (b.toolCallsAt (iters + 1)))
      dsimp only
      rw [heq]
      dsimp only [Option.getD]
      exact ih (iters + 1) tr' (by omega)
    · rw [if_neg hra]
      exact ih (iters + 1) tracked (by omega)

/-- The state left behind by `check_notifications`: queue drained,
windowed list pruned to the fresh entries, stores untouched. -/
theorem check_notifications_state (s : ApprovalService) (now : Int) :
    (check_notifications s now).1 =
      { s with notification_queue := []
               recent_notifications := s.recent_notifications.filter
                 (fun tn => now - tn.timestamp < s.notification_timeout) } := by
  unfold check_notifications
  dsimp only
  split <;> rfl

/-- The notifications returned by `check_notifications`: the drained
queue followed by the value-deduplicated fresh windowed entries. -/
theorem check_notifications_notifs (s : ApprovalService) (now : Int) :
    (check_notifications s now).2.notifications =
      (s.recent_notifications.filter
        (fun tn => now - tn.timestamp < s.notification_timeout)).foldl
        (fun acc tn => if tn.notif ∈ acc then acc else acc ++ [tn.notif])
        s.notification_queue := by
  unfold check_notifications
  dsimp only
  split
  · next hemp =>
    exact (List.isEmpty_iff.mp hemp).symm
  · rfl

/-- Membership in the dedup fold: every returned notification is from
the initial list or is the value of a folded entry. -/
theorem mem_dedupFold {l : List TimedNotification} {init : List Notification}
    {n : Notification}
    (h : n ∈ l.foldl (fun acc tn => if tn.notif ∈ acc then acc else acc ++ [tn.notif]) init) :
    n ∈ init ∨ ∃ u ∈ l, u.notif = n := by
  induction l generalizing init with
  | nil => exact Or.inl h
  | cons u l ih =>
    rw [List.foldl_cons] at h
    rcases ih h with hi | ⟨w, hw, hwn⟩
    · by_cases hu : u.notif ∈ init
      · rw [if_pos hu] at hi
        exact Or.inl hi
      · rw [if_neg hu] at hi
        rcases List.mem_append.mp hi with hi | hi
        · exact Or.inl hi
        · exact Or.inr ⟨u, List.mem_cons_self u l, (List.mem_singleton.mp hi).symm⟩
    · exact Or.inr ⟨w, List.mem_cons_of_mem u hw, hwn⟩

/-- Resolving an id absent from the pending store: early error return,
state untouched. -/
theorem resolve_notFound (s : ApprovalService) (id : String) (st so : Option String)
    (m t : String) (now : Int)
    (h : dictGet s.pending_approvals id = none) :
    handle_approval_response s id st so m t now =
      (s, .notFound ("Approval ID " ++ id ++ " not found")) := by
  unfold handle_approval_response
  rw [h]

/-! ## Claim theorems -/

/-- C1 (corrected, counterexample): dispatching the single tool call
`fetch_weather` — a name outside the registered set, with well-formed
arguments — produces *no* output at all: no `unknown_function` error
object keyed by `call_7`, and zero outputs for one submitted call id. -/
theorem c1_unknown_name_counterexample :
    handleToolCalls implDemo [bogusCall] (some []) = .ok ([], some []) := by
  rfl

/-- C1 (amended): with the tracking list present, `_handle_tool_calls`
never raises and keeps the tracking list present, and the outputs it
returns are keyed, in order, by exactly the call ids of the calls that
produce one — the registered functions (even when their execution
fails) and calls whose arguments fail to parse — while a call with an
unregistered name and well-formed arguments is treated as an OpenAPI
call handled by the backend and gets no output and no error object. -/
theorem c1_dispatch_outputs (impl : ToolImpl) (calls : List ToolCallReq)
    (tracked : List TrackedCall) :
    ∃ outs tr', handleToolCalls impl calls (some tracked) = .ok (outs, some tr') ∧
      outs.map (fun o => o.tool_call_id) =
        (calls.filter producesOutput).map (fun c => c.id) :=
  handleToolCalls_spec impl calls tracked

/-- C2 (corrected, counterexample): after approval `"A"` has been
resolved, delivering a second decision (`REJECTED`) is *not* accepted:
it returns the not-found error, the state is unchanged, and the stored
record still says `"approved"` — nothing is overwritten. -/
theorem c2_counterexample :
    handle_approval_response sResolvedLeave "A" (some "REJECTED") (some "Reject")
        "no" "t2" 5 =
      (sResolvedLeave, .notFound "Approval ID A not found") ∧
    (dictGet sResolvedLeave.approval_responses "A").map (fun ad => ad.status) =
      some "approved" :=
  ⟨rfl, rfl⟩

/-- C2 (amended): registering an approval id and resolving it once
moves it to the resolved store, and any second decision for that id is
rejected with the not-found error and leaves the whole service state
(including the stored record) unchanged — the pending-membership check
guards against double-delivery. -/
theorem c2_double_resolution (s : ApprovalService) (id : String)
    (details : List (String × String)) (t0 st1 : String) (so1 : Option String)
    (m1 t1 : String) (now1 : Int) (st2 so2 : Option String) (m2 t2 : String)
    (now2 : Int) :
    (∃ ad2,
      (handle_approval_response (register_approval_request s id details t0).1
          id (some st1) so1 m1 t1 now1).2 =
        .ok ("Approval " ++ id ++ " processed: " ++ st1) ad2 ∧
      dictGet (handle_approval_response (register_approval_request s id details t0).1
          id (some st1) so1 m1 t1 now1).1.approval_responses id = some ad2) ∧
    handle_approval_response
        (handle_approval_response (register_approval_request s id details t0).1
          id (some st1) so1 m1 t1 now1).1 id st2 so2 m2 t2 now2 =
      ((handle_approval_response (register_approval_request s id details t0).1
          id (some st1) so1 m1 t1 now1).1,
        .notFound ("Approval ID " ++ id ++ " not found")) := by
  have hreg : dictGet (register_approval_request s id details t0).1.pending_approvals id
      = some { request_details := details, status := "pending", created_at := t0,
               callback_url := s.callback_base_url ++ "/api/approval/callback/" ++ id } := by
    unfold register_approval_request
    exact dictGet_insert_self _ _ _
  obtain ⟨ad2, heq, hpend, hresp⟩ :=
    resolve_moves_record (register_approval_request s id details t0).1 id st1 so1 m1 t1 now1 _ hreg
  refine ⟨⟨ad2, ?_, hresp⟩, ?_⟩
  · exact congrArg Prod.snd heq
  · exact resolve_notFound _ _ _ _ _ _ _ hpend

/-- C3 (confirmed): resolving an id that is not in the pending store
returns the not-found error dict and leaves the service — both stores
included — completely unchanged. -/
theorem c3_unknown_id (s : ApprovalService) (id : String) (st so : Option String)
    (m t : String) (now : Int)
    (h : dictGet s.pending_approvals id = none) :
    handle_approval_response s id st so m t now =
      (s, .notFound ("Approval ID " ++ id ++ " not found")) :=
  resolve_notFound s id st so m t now h

/-- Witness for C3 at the fresh service and the never-registered id
`"Z9"`. -/
theorem c3_witness :
    dictGet emptyService.pending_approvals "Z9" = none ∧
    handle_approval_response emptyService "Z9" (some "APPROVED") (some "Approve")
        "m" "t" 0 =
      (emptyService, .notFound "Approval ID Z9 not found") :=
  ⟨rfl, c3_unknown_id emptyService "Z9" (some "APPROVED") (some "Approve") "m" "t" 0 rfl⟩

/-- Auxiliary fact: `check_notifications` reports the length of the returned list as
`count`. -/
theorem check_notifications_count (s : ApprovalService) (now : Int) :
    (check_notifications s now).2.count =
      (check_notifications s now).2.notifications.length := by
  unfold check_notifications
  dsimp only
  split <;> rfl

/-- Resolution by `handle_approval_response` of a pending leave request with status
`"APPROVED"`: the record moves to the resolved store with the updated
fields, and one approval notification is appended to the queue and the
windowed list. -/
theorem resolve_approved_leave (s : ApprovalService) (id : String)
    (ad : ApprovalData) (so : Option String) (m t : String) (now : Int)
    (hpend : dictGet s.pending_approvals id = some ad)
    (htype : dictGet ad.request_details "type" = some "leave_request") :
    ∃ (ad2 : ApprovalData) (n : Notification),
      handle_approval_response s id (some "APPROVED") so m t now =
        ({ s with pending_approvals := dictRemove s.pending_approvals id
                  approval_responses := dictInsert s.approval_responses id ad2
                  notification_queue := s.notification_queue ++ [n]
                  recent_notifications := s.recent_notifications ++ [⟨n, now⟩] },
          .ok ("Approval " ++ id ++ " processed: " ++ "APPROVED") ad2) ∧
      ad2.status = strLower "APPROVED" ∧
      ad2.request_details = ad.request_details ∧
      n.approval_id = id ∧ n.status = "APPROVED" := by
  have hcond : (dictGet ad.request_details "type" == some "leave_request") = true := by
    rw [htype]; rfl
  unfold handle_approval_response
  rw [hpend]
  dsimp only
  rw [if_pos (by rfl : (("APPROVED" == "APPROVED") = true))]
  unfold handleApprovedRequest
  dsimp only
  rw [if_pos hcond]
  refine ⟨_, _, rfl, ?_, ?_, ?_, ?_⟩ <;> rfl

/-- C4 (amended): if `register(id, details)` is called with
`request_details` of type `"leave_request"` and then `resolve` is
called exactly once for `id` with status `APPROVED`, the record moves
from the pending store to the resolved store (status `"approved"`),
and exactly one notification referencing `id` is observable via a
`check_notifications` call made before `clear_shown_notifications` —
for any other request type the record still moves but no notification
is emitted (see the counterexample). -/
theorem c4_theorem (id : String) (details : List (String × String))
    (t0 : String) (so : Option String) (m t1 : String) (nowR nowC : Int)
    (htype : dictGet details "type" = some "leave_request") :
    dictGet (handle_approval_response
        (register_approval_request emptyService id details t0).1
        id (some "APPROVED") so m t1 nowR).1.pending_approvals id = none ∧
    (∃ ad2, dictGet (handle_approval_response
        (register_approval_request emptyService id details t0).1
        id (some "APPROVED") so m t1 nowR).1.approval_responses id = some ad2 ∧
      ad2.status = "approved") ∧
    (∃ n, (check_notifications (handle_approval_response
        (register_approval_request emptyService id details t0).1
        id (some "APPROVED") so m t1 nowR).1 nowC).2.notifications = [n] ∧
      n.approval_id = id ∧ n.status = "APPROVED" ∧
      (check_notifications (handle_approval_response
        (register_approval_request emptyService id details t0).1
        id (some "APPROVED") so m t1 nowR).1 nowC).2.count = 1) := by
  have hreg : dictGet (register_approval_request emptyService id details t0).1.pending_approvals id
      = some { request_details := details, status := "pending", created_at := t0, callback_url := emptyService.callback_base_url ++ "/api/approval/callback/" ++ id } := by
    unfold register_approval_request
    exact dictGet_insert_self _ _ _
  obtain ⟨ad2, n, heq, hst, hrd, hnid, hnst⟩ :=
    resolve_approved_leave _ id _ so m t1 nowR hreg htype
  have hnots : (check_notifications (handle_approval_response
      (register_approval_request emptyService id details t0).1
      id (some "APPROVED") so m t1 nowR).1 nowC).2.notifications = [n] := by
    rw [heq]
    rw [check_notifications_notifs]
    dsimp only
    have hq : (register_approval_request emptyService id details t0).1.notification_queue = [] := rfl
    have hr : (register_approval_request emptyService id details t0).1.recent_notifications = [] := rfl
    rw [hq, hr, List.nil_append, List.nil_append]
    by_cases hc : nowC - nowR < 300
    · rw [List.filter_cons]
      simp only [List.filter_nil]
      rw [if_pos (by simpa using hc)]
      rw [List.foldl_cons, List.foldl_nil]
      rw [if_pos (List.mem_singleton.mpr rfl)]
    · rw [List.filter_cons]
      simp only [List.filter_nil]
      rw [if_neg (by simpa using hc)]
      rfl
  refine ⟨?_, ⟨ad2, ?_, ?_⟩, ⟨n, hnots, hnid, hnst, ?_⟩⟩
  · rw [heq]
    exact dictGet_remove_self _ _
  · rw [heq]
    exact dictGet_insert_self _ _ _
  · rw [hst]; rfl
  · rw [check_notifications_count, hnots]
    rfl

set_option maxRecDepth 8000 in
/-- Witness for C4: the leave request `"A"` registered and approved,
checked at `time.time() = 10`. -/
theorem c4_witness :
    dictGet sResolvedLeave.pending_approvals "A" = none ∧
    (∃ ad2, dictGet sResolvedLeave.approval_responses "A" = some ad2 ∧
      ad2.status = "approved") ∧
    (∃ n, (check_notifications sResolvedLeave 10).2.notifications = [n] ∧
      n.approval_id = "A" ∧ n.status = "APPROVED" ∧
      (check_notifications sResolvedLeave 10).2.count = 1) :=
  c4_theorem "A" leaveDetails "2025-11-18T08:00:00+00:00" (some "Approve")
    "Enjoy!" "2025-11-18T09:00:00+00:00" 0 10 rfl

set_option maxRecDepth 8000 in
/-- C4 (corrected, counterexample): registering `"M"` with
`request_details` of type `"meeting_request"` and resolving it exactly
once with `APPROVED` moves the record to the resolved store, but
`check_notifications` — called before any `clear_shown_notifications`
— returns *zero* notifications, refuting the claim for arbitrary
`details`. -/
theorem c4_counterexample :
    dictGet sResolvedMeeting.pending_approvals "M" = none ∧
    (dictGet sResolvedMeeting.approval_responses "M").map (fun ad => ad.status) =
      some "approved" ∧
    (check_notifications sResolvedMeeting 0).2.notifications = [] ∧
    (check_notifications sResolvedMeeting 0).2.count = 0 ∧
    (check_notifications sResolvedMeeting 0).2.has_notifications = false := by
  refine ⟨rfl, rfl, rfl, rfl, rfl⟩

/-- C5 (confirmed): if no status observed before the iteration cap is
terminal, the turn returns the `{status: error}` dict whose message
states the timeout (`"Request timed out after 300 seconds. Status:
..."`), `run_status` is the last observed status (the 150th
`runs.get`), and `AgentSession.process_message` leaves the session
state — agent and thread handles included — unchanged. -/
theorem c5_theorem (env : InitEnv) (b : Backend) (s : SessionState)
    (hA : s.agent.isSome = true) (hT : s.thread_id.isSome = true)
    (hact : ∀ i, i < MAX_ITERATIONS → isActiveStatus (b.statusAt i) = true) :
    processMessage b =
      [("status", .str "error"),
       ("message", .str ("Request timed out after 300 seconds. Status: "
          ++ b.statusAt MAX_ITERATIONS)),
       ("run_status", .str (b.statusAt MAX_ITERATIONS))] ∧
    (sessionProcessMessage env b s).1 = s := by
  obtain ⟨tr, hpoll⟩ := pollFuel_active b hact MAX_ITERATIONS 0 [] (by omega)
  have hmain : processMessage b =
      [("status", .str "error"),
       ("message", .str ("Request timed out after 300 seconds. Status: "
          ++ b.statusAt MAX_ITERATIONS)),
       ("run_status", .str (b.statusAt MAX_ITERATIONS))] := by
    unfold processMessage processMessageInner pollLoop
    rw [hpoll]
    dsimp only
    rw [if_pos (le_refl MAX_ITERATIONS)]
    dsimp only
    rfl
  refine ⟨hmain, ?_⟩
  unfold sessionProcessMessage
  have h1 : (s.agent.isNone || s.thread_id.isNone) = false := by
    cases hsa : s.agent <;> cases hst2 : s.thread_id <;> simp_all
  rw [if_neg (by rw [h1]; exact Bool.false_ne_true)]

/-- Witness for C5: a backend stuck on `in_progress` with a fully
initialized session. -/
theorem c5_witness :
    processMessage backendHang =
      [("status", .str "error"),
       ("message", .str "Request timed out after 300 seconds. Status: in_progress"),
       ("run_status", .str "in_progress")] ∧
    (sessionProcessMessage envOk backendHang activeSession).1 = activeSession := by
  have h := c5_theorem envOk backendHang activeSession rfl rfl (fun i _ => rfl)
  exact h

/-- C6 (amended): when the run ends `failed` before the cap, the turn
returns `status: error` with a message chosen by priority-ordered
substring inspection of the backend error payload — rate/limit
indicators first, then quota/usage, else a generic failure — the three
messages pairwise distinct; the raw payload is carried under
`error_details` and there is *no* `error_type` tag in the result. -/
theorem c6_theorem (b : Backend) (it : Nat) (tr : List TrackedCall)
    (hp : pollLoop b = .ok (it, "failed", tr)) (hit : it < MAX_ITERATIONS) :
    processMessage b =
      [("status", .str "error"),
       ("message", .str (classifyFailedMsg b.lastError)),
       ("run_status", .str "failed"),
       ("error_details", match b.lastError with | some d => .str d | none => .pnone)] ∧
    dictGet (processMessage b) "error_type" = none ∧
    (pyTruthy b.lastError = false →
      classifyFailedMsg b.lastError =
        "Run failed - possibly due to rate limiting or thread lock") ∧
    (∀ d, b.lastError = some d → pyTruthy b.lastError = true →
      (((strContains (strLower d) "rate" || strContains (strLower d) "limit") = true →
          classifyFailedMsg b.lastError = "Rate limit hit: " ++ d) ∧
       ((strContains (strLower d) "rate" || strContains (strLower d) "limit") = false →
          (strContains (strLower d) "quota" || strContains (strLower d) "usage") = true →
          classifyFailedMsg b.lastError = "Quota/Usage limit hit: " ++ d) ∧
       ((strContains (strLower d) "rate" || strContains (strLower d) "limit") = false →
          (strContains (strLower d) "quota" || strContains (strLower d) "usage") = false →
          classifyFailedMsg b.lastError = "Run failed: " ++ d) ∧
       ("Rate limit hit: " ++ d ≠ "Quota/Usage limit hit: " ++ d) ∧
       ("Rate limit hit: " ++ d ≠ "Run failed: " ++ d) ∧
       ("Quota/Usage limit hit: " ++ d ≠ "Run failed: " ++ d))) := by
  have hmain : processMessage b =
      [("status", .str "error"),
       ("message", .str (classifyFailedMsg b.lastError)),
       ("run_status", .str "failed"),
       ("error_details", match b.lastError with | some d => .str d | none => .pnone)] := by
    unfold processMessage processMessageInner
    rw [hp]
    dsimp only
    rw [if_neg (by omega)]
    rw [if_pos (by rfl : (("failed" == "failed") = true))]
  refine ⟨hmain, ?_, ?_, ?_⟩
  · rw [hmain]
    rfl
  · intro h
    unfold classifyFailedMsg
    rw [if_neg (by rw [h]; exact Bool.false_ne_true)]
  · intro d hd htr
    rw [hd] at htr ⊢
    unfold classifyFailedMsg
    rw [if_pos htr]
    dsimp only [Option.getD]
    refine ⟨?_, ?_, ?_, ?_, ?_, ?_⟩
    · intro h1
      rw [if_pos h1]
    · intro h1 h2
      rw [if_neg (by rw [h1]; exact Bool.false_ne_true), if_pos h2]
    · intro h1 h2
      rw [if_neg (by rw [h1]; exact Bool.false_ne_true),
          if_neg (by rw [h2]; exact Bool.false_ne_true)]
    · intro h
      have h2 := congrArg String.length h
      rw [String.length_append, String.length_append,
          show ("Rate limit hit: ").length = 16 from rfl,
          show ("Quota/Usage limit hit: ").length = 23 from rfl] at h2
      omega
    · intro h
      have h2 := congrArg String.length h
      rw [String.length_append, String.length_append,
          show ("Rate limit hit: ").length = 16 from rfl,
          show ("Run failed: ").length = 12 from rfl] at h2
      omega
    · intro h
      have h2 := congrArg String.length h
      rw [String.length_append, String.length_append,
          show ("Quota/Usage limit hit: ").length = 23 from rfl,
          show ("Run failed: ").length = 12 from rfl] at h2
      omega

/-- Witness for C6: a run failing immediately with payload
`"Rate limit exceeded"`. -/
theorem c6_witness :
    processMessage backendFailedRate =
      [("status", .str "error"),
       ("message", .str "Rate limit hit: Rate limit exceeded"),
       ("run_status", .str "failed"),
       ("error_details", .str "Rate limit exceeded")] ∧
    dictGet (processMessage backendFailedRate) "error_type" = none := by
  have h := c6_theorem backendFailedRate 0 [] rfl (by decide)
  refine ⟨h.1.trans ?_, h.2.1⟩
  rfl

/-- C6 (corrected, counterexample): for the failed run with a
rate-limit payload, the result's keys are exactly `status`, `message`,
`run_status`, `error_details` — there is no `error_type` tag, refuting
that part of the claim (the classified message itself is correct). -/
theorem c6_counterexample :
    (processMessage backendFailedRate).map Prod.fst =
      ["status", "message", "run_status", "error_details"] ∧
    dictGet (processMessage backendFailedRate) "error_type" = none ∧
    dictGet (processMessage backendFailedRate) "message" =
      some (.str "Rate limit hit: Rate limit exceeded") := by
  refine ⟨rfl, rfl, rfl⟩

/-- C7 (amended): a windowed notification aged at least the
300-second retention window is pruned from the windowed list by
`check_notifications`, the queue is drained, and the windowed
contribution to the returned list — this call's (when the queue was
already drained) and every later call's — only draws from entries that
were younger than 300 seconds; an undrained queue copy, however, can
still be returned by this same call (see the counterexample). -/
theorem c7_theorem (s : ApprovalService) (now : Int)
    (hT : s.notification_timeout = 300)
    (tn : TimedNotification) (_hmem : tn ∈ s.recent_notifications)
    (hage : now - tn.timestamp ≥ 300) :
    tn ∉ (check_notifications s now).1.recent_notifications ∧
    (check_notifications s now).1.notification_queue = [] ∧
    (s.notification_queue = [] →
      ∀ n ∈ (check_notifications s now).2.notifications,
        ∃ u ∈ s.recent_notifications, u.notif = n ∧ now - u.timestamp < 300) ∧
    (∀ now2 : Int,
      ∀ n ∈ (check_notifications (check_notifications s now).1 now2).2.notifications,
        ∃ u ∈ s.recent_notifications, u.notif = n ∧ now - u.timestamp < 300) := by
  refine ⟨?_, ?_, ?_, ?_⟩
  · intro hmem2
    rw [check_notifications_state] at hmem2
    dsimp only at hmem2
    have := List.of_mem_filter hmem2
    rw [hT] at this
    have := of_decide_eq_true this
    omega
  · rw [check_notifications_state]
  · intro hq n hn
    rw [check_notifications_notifs, hq] at hn
    rcases mem_dedupFold hn with h0 | ⟨u, hu, hun⟩
    · exact absurd h0 (List.not_mem_nil n)
    · have hmemu := List.mem_of_mem_filter hu
      have hcond := List.of_mem_filter hu
      rw [hT] at hcond
      exact ⟨u, hmemu, hun, of_decide_eq_true hcond⟩
  · intro now2 n hn
    rw [check_notifications_notifs] at hn
    rw [check_notifications_state] at hn
    dsimp only at hn
    rcases mem_dedupFold hn with h0 | ⟨u, hu, hun⟩
    · exact absurd h0 (List.not_mem_nil n)
    · have hu2 := List.mem_of_mem_filter hu
      have hmemu := List.mem_of_mem_filter hu2
      have hcond := List.of_mem_filter hu2
      rw [hT] at hcond
      exact ⟨u, hmemu, hun, of_decide_eq_true hcond⟩

/-- Witness for C7: a drained-queue service holding one windowed
notification of age exactly 300. -/
theorem c7_witness :
    (⟨notifSample, 0⟩ : TimedNotification) ∈ sAgedWindow.recent_notifications ∧
    (300 : Int) - (0 : Int) ≥ 300 ∧
    ((⟨notifSample, 0⟩ : TimedNotification) ∉
      (check_notifications sAgedWindow 300).1.recent_notifications ∧
     (check_notifications sAgedWindow 300).1.notification_queue = [] ∧
     (sAgedWindow.notification_queue = [] →
       ∀ n ∈ (check_notifications sAgedWindow 300).2.notifications,
         ∃ u ∈ sAgedWindow.recent_notifications,
           u.notif = n ∧ (300 : Int) - u.timestamp < 300) ∧
     (∀ now2 : Int,
       ∀ n ∈ (check_notifications (check_notifications sAgedWindow 300).1 now2).2.notifications,
         ∃ u ∈ sAgedWindow.recent_notifications,
           u.notif = n ∧ (300 : Int) - u.timestamp < 300)) :=
  ⟨List.mem_singleton.mpr rfl, by decide,
   c7_theorem sAgedWindow 300 rfl ⟨notifSample, 0⟩ (List.mem_singleton.mpr rfl)
     (by decide)⟩

set_option maxRecDepth 8000 in
/-- C7 (corrected, counterexample): the approval notification for
`"A"` was created at `time.time() = 0` and sits in both the queue and
the windowed list; `check_notifications` at `time.time() = 300` prunes
the aged windowed entry yet still *returns* that very notification
(count 1, via the not-yet-drained queue copy), refuting "excludes it
from the returned notifications". -/
theorem c7_counterexample :
    sResolvedLeave.recent_notifications.map (fun tn => tn.timestamp) = [0] ∧
    (check_notifications sResolvedLeave 300).2.count = 1 ∧
    (check_notifications sResolvedLeave 300).2.notifications.map
      (fun n => n.approval_id) = ["A"] ∧
    sResolvedLeave.recent_notifications.map (fun tn => tn.notif) =
      (check_notifications sResolvedLeave 300).2.notifications ∧
    (check_notifications sResolvedLeave 300).1.recent_notifications = [] := by
  refine ⟨rfl, rfl, rfl, rfl, rfl⟩

/-- C8 (confirmed): immediately after `clear_shown_notifications`,
with no interleaving resolution, `check_notifications` returns
`has_notifications: false`, an empty list, count `0` (and status
`"success"`), for every prior service state and clock value. -/
theorem c8_theorem (s : ApprovalService) (now : Int) :
    (check_notifications (clear_shown_notifications s) now).2.has_notifications = false ∧
    (check_notifications (clear_shown_notifications s) now).2.notifications = [] ∧
    (check_notifications (clear_shown_notifications s) now).2.count = 0 ∧
    (check_notifications (clear_shown_notifications s) now).2.status = "success" :=
  ⟨rfl, rfl, rfl, rfl⟩

/-- C9 (amended): when an agent handle already exists, `initialize()`
is a no-op but returns Python `None` (falsy), not an explicit success;
when initialization fails the exception is caught and `False` is
returned, with the handles assigned before the raising step left in
place — only a failure in `CalendarAgent()` construction leaves the
state fully unset, while a `create_agent()` failure leaves the agent
handle and project context set; all four calls succeeding sets every
handle and returns `True`. -/
theorem c9_theorem (env : InitEnv) (s : SessionState) :
    (s.agent.isSome = true → initSession env s = (s, none)) ∧
    (s.agent = none → env.calendarAgentRaises = true →
      initSession env s = (s, some false)) ∧
    (s.agent = none → env.calendarAgentRaises = false → env.enterRaises = false →
      env.createAgentRaises = true →
      initSession env s =
        ({ s with agent := some (), project_context := some () }, some false)) ∧
    (s.agent = none → env.calendarAgentRaises = false → env.enterRaises = false →
      env.createAgentRaises = false → env.createThreadRaises = false →
      initSession env s =
        ({ s with
            agent := some ()
            project_context := some ()
            agent_id := some env.agentIdValue
            thread_id := some env.threadIdValue }, some true)) := by
  refine ⟨?_, ?_, ?_, ?_⟩
  · intro h
    unfold initSession
    rw [if_pos h]
  · intro h1 h2
    unfold initSession
    rw [if_neg (by rw [h1]; exact Bool.false_ne_true), if_pos h2]
  · intro h1 h2 h3 h4
    unfold initSession
    rw [if_neg (by rw [h1]; exact Bool.false_ne_true),
        if_neg (by rw [h2]; exact Bool.false_ne_true)]
    dsimp only
    rw [if_neg (by rw [h3]; exact Bool.false_ne_true), if_pos h4]
  · intro h1 h2 h3 h4 h5
    unfold initSession
    rw [if_neg (by rw [h1]; exact Bool.false_ne_true),
        if_neg (by rw [h2]; exact Bool.false_ne_true)]
    dsimp only
    rw [if_neg (by rw [h3]; exact Bool.false_ne_true),
        if_neg (by rw [h4]; exact Bool.false_ne_true),
        if_neg (by rw [h5]; exact Bool.false_ne_true)]

/-- C9 (corrected, counterexample): calling `initialize()` on an
already-active session returns `None` — not a success report — and a
failure in `create_agent()` leaves the agent handle and project
context assigned, so the state is not fully uninitialized. -/
theorem c9_counterexample :
    (initSession envOk activeSession).2 = none ∧
    (initSession envAgentFail freshSession).2 = some false ∧
    (initSession envAgentFail freshSession).1.agent = some () ∧
    (initSession envAgentFail freshSession).1.project_context = some () :=
  ⟨rfl, rfl, rfl, rfl⟩

/-- Witness for C9 at an active session and at a fresh session whose
`create_agent()` call raises. -/
theorem c9_witness :
    initSession envOk activeSession = (activeSession, none) ∧
    initSession envAgentFail freshSession =
      ({ freshSession with agent := some (), project_context := some () },
        some false) := by
  have h1 := c9_theorem envOk activeSession
  have h2 := c9_theorem envAgentFail freshSession
  exact ⟨h1.1 rfl, h2.2.2.1 rfl rfl rfl rfl⟩

/-- C10 (amended): for a pending id, a resolution whose status is the
exact string `"APPROVED"` emits a notification (into both queue and
windowed list) exactly when the registered `request_details` type is
`"leave_request"`, and emits nothing for any other type; a resolution
with any other status *string* (including lowercase `"approved"`) is
routed to the rejection handler, which always emits exactly one
notification regardless of type; but a *missing* status raises
`AttributeError` at `status.lower()`, which is caught and returned as
an error dict with no notification and the record left pending. -/
theorem c10_theorem (s : ApprovalService) (id : String) (ad : ApprovalData)
    (so : Option String) (m t : String) (now : Int)
    (hpend : dictGet s.pending_approvals id = some ad) :
    (dictGet ad.request_details "type" = some "leave_request" →
      ∃ n, (handle_approval_response s id (some "APPROVED") so m t now).1.notification_queue
          = s.notification_queue ++ [n] ∧
        (handle_approval_response s id (some "APPROVED") so m t now).1.recent_notifications
          = s.recent_notifications ++ [⟨n, now⟩] ∧
        n.approval_id = id ∧ n.status = "APPROVED") ∧
    (¬ dictGet ad.request_details "type" = some "leave_request" →
      (handle_approval_response s id (some "APPROVED") so m t now).1.notification_queue
          = s.notification_queue ∧
      (handle_approval_response s id (some "APPROVED") so m t now).1.recent_notifications
          = s.recent_notifications) ∧
    (∀ st : String, st ≠ "APPROVED" →
      ∃ n, (handle_approval_response s id (some st) so m t now).1.notification_queue
          = s.notification_queue ++ [n] ∧
        (handle_approval_response s id (some st) so m t now).1.recent_notifications
          = s.recent_notifications ++ [⟨n, now⟩] ∧
        n.approval_id = id ∧ n.status = "REJECTED") ∧
    handle_approval_response s id none so m t now =
      (s, .exnCaught "AttributeError: NoneType object has no attribute lower") := by
  refine ⟨?_, ?_, ?_, ?_⟩
  · intro htype
    obtain ⟨ad2, n, heq, hst, hrd, hnid, hnst⟩ :=
      resolve_approved_leave s id ad so m t now hpend htype
    refine ⟨n, ?_, ?_, hnid, hnst⟩
    · rw [heq]
    · rw [heq]
  · intro htype
    have hc : ¬ ((dictGet ad.request_details "type" == some "leave_request") = true) :=
      fun hcc => htype (beq_iff_eq.mp hcc)
    unfold handle_approval_response
    rw [hpend]
    dsimp only
    rw [if_pos (by rfl : (("APPROVED" == "APPROVED") = true))]
    unfold handleApprovedRequest
    rw [if_neg hc]
    exact ⟨rfl, rfl⟩
  · intro st hst
    unfold handle_approval_response
    rw [hpend]
    dsimp only
    rw [if_neg (fun hcc => hst (beq_iff_eq.mp hcc))]
    unfold handleRejectedRequest
    dsimp only
    exact ⟨_, rfl, rfl, rfl, rfl⟩
  · unfold handle_approval_response
    rw [hpend]

set_option maxRecDepth 8000 in
/-- C10 (corrected, counterexample): resolving pending `"A"` with a
missing status is *not* routed to the rejection handler: it returns
the caught-exception error result, emits no notification anywhere, and
leaves the record pending. -/
theorem c10_counterexample :
    handle_approval_response sPendingLeave "A" none (some "Approve") "m" "t1" 0 =
      (sPendingLeave, .exnCaught "AttributeError: NoneType object has no attribute lower") ∧
    sPendingLeave.notification_queue = [] ∧
    sPendingLeave.recent_notifications = [] ∧
    dictGet sPendingLeave.pending_approvals "A" = some adPendingLeave :=
  ⟨rfl, rfl, rfl, rfl⟩

set_option maxRecDepth 8000 in
/-- Witness for C10: pending leave request `"A"` — `"APPROVED"`
emits the approval notification, `"approved"` (lowercase) goes to the
rejection handler, a missing status errors out. -/
theorem c10_witness :
    (∃ n, (handle_approval_response sPendingLeave "A" (some "APPROVED") (some "Approve")
          "ok" "t1" 0).1.notification_queue = sPendingLeave.notification_queue ++ [n] ∧
      (handle_approval_response sPendingLeave "A" (some "APPROVED") (some "Approve")
          "ok" "t1" 0).1.recent_notifications
        = sPendingLeave.recent_notifications ++ [⟨n, 0⟩] ∧
      n.approval_id = "A" ∧ n.status = "APPROVED") ∧
    (∃ n, (handle_approval_response sPendingLeave "A" (some "approved") (some "Approve")
          "ok" "t1" 0).1.notification_queue = sPendingLeave.notification_queue ++ [n] ∧
      (handle_approval_response sPendingLeave "A" (some "approved") (some "Approve")
          "ok" "t1" 0).1.recent_notifications
        = sPendingLeave.recent_notifications ++ [⟨n, 0⟩] ∧
      n.approval_id = "A" ∧ n.status = "REJECTED") ∧
    handle_approval_response sPendingLeave "A" none (some "Approve") "ok" "t1" 0 =
      (sPendingLeave, .exnCaught "AttributeError: NoneType object has no attribute lower") := by
  have h := c10_theorem sPendingLeave "A" adPendingLeave (some "Approve") "ok" "t1" 0 rfl
  exact ⟨h.1 rfl, h.2.2.1 "approved" (by decide), h.2.2.2⟩
